import Mathlib

/-!
Verification of the catalog sync / search-filter view-model of the
single-page app-store UI (`src/App.jsx`).

The embedding models:
* `AppRecord` — one catalog entry (the fields the claims touch);
* `filteredApps` — the client-side search filter (App.jsx lines 40-43),
  including the JavaScript truthiness checks `app.name && ...`;
* the subscription state machine (`onSnapshotNext`, `onSnapshotError`,
  `selectApp`, `dismiss`) over an explicit `AppState`;
* `render` — the pure view function of App.jsx's main render
  (spinner / error banner / grid / empty state / detail overlay);
* `mkAppCard` / `cardDownloadsText` — the summary card's fallback texts.

JavaScript strings are modelled as Lean `String`; `undefined`/`null`
fields as `Option`; JS truthiness of a string (empty string is falsy)
as the `truthy` predicate.
-/

set_option autoImplicit false

namespace AppStore

/-- Substring containment on character lists: `containsSub l pat` holds
iff `pat` occurs contiguously inside `l` (the semantics of JavaScript's
`String.prototype.includes`). The empty pattern is contained in every
list. -/
def containsSub : List Char → List Char → Bool
  | [], pat => pat.isEmpty
  | c :: t, pat => pat.isPrefixOf (c :: t) || containsSub t pat

/-- JavaScript's `toLowerCase`, modelled characterwise. -/
def toLowerCase (s : String) : String :=
  String.mk (s.toList.map Char.toLower)

/-- JavaScript's `s.includes(pat)`. -/
def includes (s pat : String) : Bool :=
  containsSub s.toList pat.toList

/-- JS truthiness of an optional string: `undefined`/`null` and the empty
string are falsy, every other string is truthy. -/
def truthy : Option String → Bool
  | none => false
  | some s => s != ""

/-- One catalog entry, with the fields the claims are about. All fields
except the identity are optional, as in the wire shape. -/
structure AppRecord where
  id : String
  name : Option String
  category : Option String
  downloads : Option Nat
  description : Option String
deriving Repr, DecidableEq

/-- One side of the filter's disjunction, App.jsx line 41/42:
`app.name && app.name.toLowerCase().includes(searchTerm.toLowerCase())`.
An absent field short-circuits to false, and so does an empty string
(falsy in JS). -/
def fieldMatches : Option String → String → Bool
  | none, _ => false
  | some s, q => s != "" && includes (toLowerCase s) (toLowerCase q)

/-- The filter predicate of App.jsx lines 40-43. -/
def matchesSearch (app : AppRecord) (q : String) : Bool :=
  fieldMatches app.name q || fieldMatches app.category q

/-- `filteredApps` — App.jsx lines 40-43:
`apps.filter(app => (app.name && ...includes(...)) || (app.category && ...))`. -/
def filteredApps (apps : List AppRecord) (searchTerm : String) : List AppRecord :=
  apps.filter (fun app => matchesSearch app searchTerm)

/-- The inclusion rule as the specification words it: a record is
included iff the query is empty, or the record's name contains the query
case-insensitively, or its category does; absent fields never match.
Kept separate from `filteredApps` (which is translated from the code) so
the two can be compared. -/
def specIncluded (r : AppRecord) (q : String) : Bool :=
  q == "" ||
  (match r.name with
   | some s => includes (toLowerCase s) (toLowerCase q)
   | none => false) ||
  (match r.category with
   | some s => includes (toLowerCase s) (toLowerCase q)
   | none => false)

/-- The component state of `App` (App.jsx lines 8-12). -/
structure AppState where
  apps : List AppRecord
  loading : Bool
  error : Option String
  searchTerm : String
  selectedApp : Option AppRecord
deriving Repr, DecidableEq

/-- The `useState` initial values (App.jsx lines 8-12). -/
def initialState : AppState :=
  { apps := [], loading := true, error := none, searchTerm := "",
    selectedApp := none }

/-- One document of a snapshot: its id plus its data fields. -/
structure SnapshotDoc where
  id : String
  name : Option String
  category : Option String
  downloads : Option Nat
  description : Option String
deriving Repr, DecidableEq

/-- The mapping `doc => ({ id: doc.id, ...doc.data() })` of App.jsx
lines 20-23. -/
def docToRecord (d : SnapshotDoc) : AppRecord :=
  { id := d.id, name := d.name, category := d.category,
    downloads := d.downloads, description := d.description }

/-- The snapshot success callback, App.jsx lines 19-25:
`setApps(appsData); setLoading(false);`. -/
def onSnapshotNext (docs : List SnapshotDoc) (s : AppState) : AppState :=
  { s with apps := docs.map docToRecord, loading := false }

/-- The snapshot error callback, App.jsx lines 26-30:
`setError(err.message); setLoading(false);`. -/
def onSnapshotError (msg : String) (s : AppState) : AppState :=
  { s with error := some msg, loading := false }

/-- `onClick={() => setSelectedApp(app)}`, App.jsx line 114. -/
def selectApp (r : AppRecord) (s : AppState) : AppState :=
  { s with selectedApp := some r }

/-- `onClose={() => setSelectedApp(null)}`, App.jsx line 132. -/
def dismiss (s : AppState) : AppState :=
  { s with selectedApp := none }

/-- Comma grouping of a reversed digit list: after every third digit
that is followed by more digits, a separator is inserted. -/
def commaGroup : List Char → List Char
  | a :: b :: c :: d :: rest => a :: b :: c :: ',' :: commaGroup (d :: rest)
  | l => l

/-- Modelled from the spec: `formatNumber` is imported from `./utils`,
whose source is not in the repository; the spec's scenario shows a
locale-formatted count such as "12,000", so it is modelled as comma
thousands-grouping of the decimal representation. -/
def formatNumber (n : Nat) : String :=
  String.mk ((commaGroup (toString n).toList.reverse).reverse)

/-- The downloads text of the summary card, App.jsx line 185:
`app.downloads > 0 ? formatNumber(app.downloads) + " downloads" : 'New Release'`.
In JS, `undefined > 0` is false, so an absent field takes the fallback. -/
def cardDownloadsText : Option Nat → String
  | some n => if 0 < n then formatNumber n ++ " downloads" else "New Release"
  | none => "New Release"

/-- JS falsy-fallback `value || default` for optional string fields. -/
def fallback (f : Option String) (d : String) : String :=
  match f with
  | some s => if s = "" then d else s
  | none => d

/-- The texts of one summary card (`AppCard`, App.jsx lines 138-198). -/
structure AppCardView where
  title : String
  categoryLabel : String
  downloadsText : String
deriving Repr, DecidableEq

/-- `AppCard`: `app.name || 'Untitled App'`, `app.category || 'Utility'`,
and the downloads line. -/
def mkAppCard (app : AppRecord) : AppCardView :=
  { title := fallback app.name "Untitled App"
    categoryLabel := fallback app.category "Utility"
    downloadsText := cardDownloadsText app.downloads }

/-- The visible output of the main render (App.jsx lines 97-133). -/
structure RenderView where
  errorBanner : Option String
  spinner : Bool
  grid : Option (List AppCardView)
  emptyState : Bool
  overlay : Option AppRecord
deriving Repr, DecidableEq

/-- The main render as a pure function of the state:
`{error && <banner>}` (line 97), `loading ? <spinner> : <grid>`
(lines 104-117), `{!loading && filteredApps.length === 0 && <empty>}`
(line 119), `{selectedApp && <AppDetailsModal app={selectedApp}>}`
(line 131). -/
def render (s : AppState) : RenderView :=
  let fa := filteredApps s.apps s.searchTerm
  { errorBanner := match s.error with
      | none => none
      | some e => if e = "" then none else some e
    spinner := s.loading
    grid := if s.loading then none else some (fa.map mkAppCard)
    emptyState := !s.loading && fa.length == 0
    overlay := s.selectedApp }

/-- A record with neither name nor category: the witness that the filter
drops such records even for the empty query. -/
def badRec : AppRecord :=
  { id := "0", name := none, category := none, downloads := none,
    description := none }

/-- A concrete snapshot document used in scenario counterexamples. -/
def doc1 : SnapshotDoc :=
  { id := "1", name := some "Calculator", category := some "Tools",
    downloads := some 5, description := none }

lemma containsSub_nil_pat (l : List Char) : containsSub l [] = true := by
  cases l <;> simp [containsSub, List.isPrefixOf]

lemma includes_empty (s : String) : includes s "" = true :=
  containsSub_nil_pat s.toList

lemma toLowerCase_empty : toLowerCase "" = "" := rfl

lemma fieldMatches_empty (f : Option String) :
    fieldMatches f "" = truthy f := by
  cases f with
  | none => rfl
  | some s => simp [fieldMatches, truthy, toLowerCase_empty, includes_empty]

lemma fieldMatches_iff (f : Option String) (q : String) :
    fieldMatches f q = true ↔
      ∃ s, f = some s ∧ s ≠ "" ∧
        includes (toLowerCase s) (toLowerCase q) = true := by
  cases f with
  | none => simp [fieldMatches]
  | some s => simp [fieldMatches]

lemma filter_idem {α : Type} (p : α → Bool) (l : List α) :
    (l.filter p).filter p = l.filter p := by
  induction l with
  | nil => rfl
  | cons a t ih =>
    by_cases h : p a = true <;> simp [List.filter_cons, h, ih]

/-- Claim C1 (counterexample): filtering with the empty query is not the
identity — a record whose name and category are both absent is dropped. -/
theorem filteredApps_empty_query_not_identity_cex :
    filteredApps [badRec] "" ≠ [badRec] := by decide

/-- Claim C1 (amended): filtering with the empty query keeps exactly the
records with a truthy (present and nonempty) name or category, in order;
it is the identity precisely on lists where every record has one. -/
theorem filteredApps_empty_query_eq_filter_truthy (L : List AppRecord) :
    filteredApps L "" = L.filter (fun r => truthy r.name || truthy r.category) := by
  unfold filteredApps
  apply List.filter_congr
  intro r _
  simp [matchesSearch, fieldMatches_empty]

/-- Claim C2 (counterexample): the spec's inclusion rule ("included iff
the query is empty, or name/category contains it") disagrees with the
code on a record with neither name nor category and the empty query. -/
theorem filteredApps_mem_spec_rule_cex :
    ¬ (badRec ∈ filteredApps [badRec] "" ↔ specIncluded badRec "" = true) := by
  decide

/-- Claim C2 (amended): a record is in `filteredApps L q` iff it is in
`L` and its name, or its category, is present, nonempty, and contains
`q` case-insensitively; in particular a record with both fields absent
is never included, even for the empty query. -/
theorem mem_filteredApps_iff (L : List AppRecord) (q : String) (r : AppRecord) :
    r ∈ filteredApps L q ↔
      r ∈ L ∧
        ((∃ s, r.name = some s ∧ s ≠ "" ∧
            includes (toLowerCase s) (toLowerCase q) = true) ∨
         (∃ s, r.category = some s ∧ s ≠ "" ∧
            includes (toLowerCase s) (toLowerCase q) = true)) := by
  rw [filteredApps, List.mem_filter]
  simp [matchesSearch, fieldMatches_iff]

/-- Claim C3: the subscription error callback sets the error message,
clears loading, and changes nothing else — the record list (initially
empty), the search term and the selection are untouched. -/
theorem onSnapshotError_behavior (s : AppState) (m : String) :
    (onSnapshotError m s).error = some m ∧
    (onSnapshotError m s).loading = false ∧
    (onSnapshotError m s).apps = s.apps ∧
    (onSnapshotError m s).searchTerm = s.searchTerm ∧
    (onSnapshotError m s).selectedApp = s.selectedApp ∧
    (onSnapshotError m initialState).apps = [] :=
  ⟨rfl, rfl, rfl, rfl, rfl, rfl⟩

/-- Claim C4 (counterexample): a snapshot arriving after a failure does
not clear the previously set error — the callback never resets it. -/
theorem onSnapshotNext_keeps_error_cex :
    (onSnapshotNext [doc1] (onSnapshotError "permission-denied" initialState)).error
        = some "permission-denied" ∧
    (onSnapshotNext [doc1] (onSnapshotError "permission-denied" initialState)).error
        ≠ none := by
  refine ⟨rfl, by decide⟩

/-- Claim C4 (amended): on every snapshot the record list is replaced by
the mapped documents in order and loading is cleared, but a previously
set error is left in place (as are search term and selection). -/
theorem onSnapshotNext_behavior (docs : List SnapshotDoc) (s : AppState) :
    (onSnapshotNext docs s).apps = docs.map docToRecord ∧
    (onSnapshotNext docs s).loading = false ∧
    (onSnapshotNext docs s).error = s.error ∧
    (onSnapshotNext docs s).searchTerm = s.searchTerm ∧
    (onSnapshotNext docs s).selectedApp = s.selectedApp :=
  ⟨rfl, rfl, rfl, rfl, rfl⟩

/-- A loaded state with an error set and an empty catalog: render shows
both the error banner and the empty-state message. -/
def errEmptyState : AppState :=
  { apps := [], loading := false, error := some "permission-denied",
    searchTerm := "", selectedApp := none }

/-- Claim C5 (counterexample): the empty-state message is shown even
while an error banner is displayed — the render checks only loading and
list emptiness, not the error. -/
theorem render_emptyState_shown_with_error_cex :
    (render errEmptyState).emptyState = true ∧
    (render errEmptyState).errorBanner = some "permission-denied" := by
  decide

/-- Claim C5 (amended): rendering is a pure function of the state; the
spinner shows and the grid is suppressed exactly while loading, the
banner shows exactly when the error is truthy, one card is rendered per
filtered record in input order once loading finishes, the overlay shows
the selection — and the empty-state message is shown exactly when
loading is finished and the filtered list is empty, regardless of the
error. -/
theorem render_characterization (s : AppState) :
    (render s).spinner = s.loading ∧
    (render s).grid
        = (if s.loading then none
           else some ((filteredApps s.apps s.searchTerm).map mkAppCard)) ∧
    ((render s).errorBanner ≠ none ↔ truthy s.error = true) ∧
    ((render s).emptyState = true ↔
      s.loading = false ∧ filteredApps s.apps s.searchTerm = []) ∧
    (render s).overlay = s.selectedApp := by
  refine ⟨rfl, rfl, ?_, ?_, rfl⟩
  · cases h : s.error with
    | none => simp [render, truthy, h]
    | some e =>
      by_cases he : e = "" <;> simp [render, truthy, h, he]
  · cases hl : s.loading <;>
      simp [render, hl, List.length_eq_zero]

/-- Claim C6: after selecting a record, any later snapshot — including
one that removes or modifies that record — leaves the selection and the
overlay's displayed record unchanged (the state holds the captured
value), until dismiss clears it. -/
theorem selected_record_survives_snapshot_until_dismiss
    (s : AppState) (r : AppRecord) (docs : List SnapshotDoc) :
    (onSnapshotNext docs (selectApp r s)).selectedApp = some r ∧
    (render (onSnapshotNext docs (selectApp r s))).overlay = some r ∧
    (dismiss (onSnapshotNext docs (selectApp r s))).selectedApp = none :=
  ⟨rfl, rfl, rfl⟩

/-- Claim C7: filtering is idempotent. -/
theorem filteredApps_idempotent (L : List AppRecord) (q : String) :
    filteredApps (filteredApps L q) q = filteredApps L q :=
  filter_idem _ _

/-- Claim C8: the filtered list is a sublist of the input — relative
order is preserved and nothing is reordered. -/
theorem filteredApps_sublist (L : List AppRecord) (q : String) :
    List.Sublist (filteredApps L q) L :=
  List.filter_sublist L

/-- A record with the downloads field absent. -/
def recNoDownloads : AppRecord :=
  { id := "1", name := some "Calculator", category := some "Tools",
    downloads := none, description := none }

/-- A record with 12000 downloads. -/
def rec12000 : AppRecord :=
  { id := "2", name := some "Player", category := some "Media",
    downloads := some 12000, description := none }

/-- A record with the downloads field present but zero. -/
def recZeroDownloads : AppRecord :=
  { id := "3", name := some "Notes", category := some "Tools",
    downloads := some 0, description := none }

/-- Claim C9: a card for a record without downloads shows "New Release",
and one with 12000 downloads shows the comma-formatted count. -/
theorem card_downloads_text_scenarios :
    (mkAppCard recNoDownloads).downloadsText = "New Release" ∧
    (mkAppCard rec12000).downloadsText = "12,000 downloads" := by
  decide

/-- Claim C10: a record with downloads equal to zero shows "New Release",
indistinguishable from an absent count, and never "0 downloads". -/
theorem card_zero_downloads_new_release :
    (mkAppCard recZeroDownloads).downloadsText = "New Release" ∧
    (mkAppCard recZeroDownloads).downloadsText
        = (mkAppCard recNoDownloads).downloadsText ∧
    (mkAppCard recZeroDownloads).downloadsText ≠ "0 downloads" := by
  decide

end AppStore
